import Mathlib

/-!
Verification of the local genetic-risk engine
(client/src/lib/genetics.ts, function calculateLocalRisk).

Numbers are modelled as rationals; the JavaScript computations involved
are products, sums and divisions of small decimal constants, embedded
verbatim.  The source's ternary chains on status strings are rendered as
pattern matches on the status enum; the numeric guards stay conditionals.
The display string riskRange is modelled by the two numeric endpoints
(as fractions of 1) from which it is formatted; the free-text fields
reasoning and explanation are not modelled.
-/

/-- Member status (shared/schema.ts: memberStatuses). -/
inductive Status
  | affected
  | carrier
  | unaffected
  | unknown
deriving DecidableEq, Fintype

/-- Inheritance pattern (shared/schema.ts: inheritancePatterns). -/
inductive Pattern
  | autosomal_recessive
  | autosomal_dominant
  | x_linked
deriving DecidableEq, Fintype

/-- Child sex (shared/schema.ts: sexes). -/
inductive ChildSex
  | male
  | female
  | unknown
deriving DecidableEq, Fintype

/-- The observed_child_outcome string when present. -/
inductive ObservedOutcome
  | affected
  | unaffected
  | unknown
deriving DecidableEq, Fintype

/-- Parent role, distinguished by transmitProbAR in the source. -/
inductive Role
  | mother
  | father
deriving DecidableEq, Fintype

/-- DEFAULT_PRIORS.autosomal_recessive.carrier_prior = 0.01 -/
def ar_carrier_prior : ℚ := 1/100

/-- DEFAULT_PRIORS.autosomal_recessive.affected_prior = 0.0001 -/
def ar_affected_prior : ℚ := 1/10000

/-- DEFAULT_PRIORS.autosomal_dominant.affected_prior = 0.001 -/
def ad_affected_prior : ℚ := 1/1000

/-- DEFAULT_PRIORS.x_linked.mother_carrier_prior = 0.01 -/
def xl_mother_carrier_prior : ℚ := 1/100

/-- DEFAULT_PRIORS.x_linked.mother_affected_prior = 0.0001 -/
def xl_mother_affected_prior : ℚ := 1/10000

/-- DEFAULT_PRIORS.x_linked.father_affected_prior = 0.0005 -/
def xl_father_affected_prior : ℚ := 1/2000

/-- genetics.ts lines 43-56.  The unknown-mother arm reads
DEFAULT_PRIORS.x_linked.mother_carrier_prior, as in the source. -/
def transmitProbAR (status : Status) (role : Role) : ℚ :=
  match status with
  | .affected => 1
  | .carrier => 1/2
  | .unaffected => 0
  | .unknown =>
    match role with
    | .mother => xl_mother_carrier_prior * (1/2) + ar_affected_prior * 1
    | .father => ar_carrier_prior * (1/2) + ar_affected_prior * 1

/-- genetics.ts lines 58-63. -/
def transmitProbAD (status : Status) : ℚ :=
  match status with
  | .affected => 1/2
  | .carrier => 1/2
  | .unaffected => 0
  | .unknown => ad_affected_prior * (1/2)

/-- genetics.ts lines 65-70. -/
def motherTransmitXLR (status : Status) : ℚ :=
  match status with
  | .affected => 1
  | .carrier => 1/2
  | .unaffected => 0
  | .unknown => xl_mother_carrier_prior * (1/2) + xl_mother_affected_prior * 1

/-- genetics.ts lines 72-76 (carrier and unknown both fall through to the
father-affected prior). -/
def fatherTransmitToDaughterXLR (status : Status) : ℚ :=
  match status with
  | .affected => 1
  | .unaffected => 0
  | .carrier => xl_father_affected_prior
  | .unknown => xl_father_affected_prior

/-- JavaScript Math.round on the non-negative values occurring here:
round half up. -/
def jround (q : ℚ) : ℤ := ⌊q + 1/2⌋

/-- The numeric content of the forward computation (genetics.ts lines
78-121): riskPercentage plus the two endpoints of riskRange, as
fractions of 1. -/
structure ForwardRisk where
  riskPercentage : ℤ
  riskMin : ℚ
  riskMax : ℚ
deriving DecidableEq

/-- Forward Mendelian risk, genetics.ts lines 78-121. -/
def forwardRisk (pattern : Pattern) (motherStatus fatherStatus : Status)
    (childSex : ChildSex) : ForwardRisk :=
  match pattern with
  | .autosomal_recessive =>
    let p_f := transmitProbAR fatherStatus .father
    let p_m := transmitProbAR motherStatus .mother
    let risk := p_f * p_m
    ⟨jround (risk * 100), risk, risk⟩
  | .autosomal_dominant =>
    let p_f := transmitProbAD fatherStatus
    let p_m := transmitProbAD motherStatus
    let risk := 1 - (1 - p_f) * (1 - p_m)
    ⟨jround (risk * 100), risk, risk⟩
  | .x_linked =>
    let p_m := motherTransmitXLR motherStatus
    match childSex with
    | .male => ⟨jround (p_m * 100), p_m, p_m⟩
    | .female =>
      let p_f_d := fatherTransmitToDaughterXLR fatherStatus
      let risk := p_m * p_f_d
      ⟨jround (risk * 100), risk, risk⟩
    | .unknown =>
      let p_f_d := fatherTransmitToDaughterXLR fatherStatus
      let maleRisk := p_m
      let femaleRisk := p_m * p_f_d
      ⟨jround ((maleRisk + femaleRisk) / 2 * 100),
        min maleRisk femaleRisk, max maleRisk femaleRisk⟩

/-- The updated_risk record of a Bayesian update. -/
structure UpdatedRisk where
  min : ℚ
  max : ℚ
deriving DecidableEq

/-- CalculationResult.bayesianUpdate (genetics.ts lines 20-24). -/
structure BayesUpdate where
  parent1_carrier_probability : ℚ
  parent2_carrier_probability : ℚ
  updated_risk : Option UpdatedRisk
deriving DecidableEq

/-- Confidence label of a result. -/
inductive Confidence
  | high
  | medium
  | low
deriving DecidableEq, Fintype

/-- The numeric and structured content of CalculationResult
(genetics.ts lines 13-25). -/
structure CalculationResult where
  riskPercentage : ℤ
  riskMin : ℚ
  riskMax : ℚ
  confidence : Confidence
  bayesianUpdate : Option BayesUpdate
deriving DecidableEq

/-- motherStatus === 'unaffected' ? 0.0 : 1.0 (genetics.ts lines 128-130,
158-159, 164-165). -/
def pinUnlessUnaffected (status : Status) : ℚ :=
  match status with
  | .unaffected => 0
  | _ => 1

/-- Parent prior in the AR observed-unaffected arm (genetics.ts lines
136-137): carrier or affected 1.0, unknown the AR carrier prior, else 0.0. -/
def arUnaffectedPrior (status : Status) : ℚ :=
  match status with
  | .carrier => 1
  | .affected => 1
  | .unknown => ar_carrier_prior
  | .unaffected => 0

/-- Mother prior in the XLR observed-unaffected male arm (genetics.ts line
171): unknown the XL mother carrier prior, carrier or affected 1.0, else 0.0. -/
def xlrUnaffectedMotherPrior (status : Status) : ℚ :=
  match status with
  | .unknown => xl_mother_carrier_prior
  | .carrier => 1
  | .affected => 1
  | .unaffected => 0

/-- fatherStatus === 'carrier' ? 1.0 : 0.0 (genetics.ts line 173). -/
def pinIfCarrier (status : Status) : ℚ :=
  match status with
  | .carrier => 1
  | _ => 0

/-- calculateLocalRisk, genetics.ts lines 27-187.  The observed outcome
is an Option: none models an absent observed_child_outcome field.  The
Bayesian block (lines 124-177) runs only when the outcome is present and
not unknown; only the autosomal-recessive arms overwrite the displayed
risk values, the x-linked arms attach the update and leave the display
at the forward values, and confidence is the constant High of line 182. -/
def calculateLocalRisk (pattern : Pattern) (motherStatus fatherStatus : Status)
    (childSex : ChildSex) (observed : Option ObservedOutcome) : CalculationResult :=
  let fwd := forwardRisk pattern motherStatus fatherStatus childSex
  let keepForward : CalculationResult :=
    ⟨fwd.riskPercentage, fwd.riskMin, fwd.riskMax, .high, none⟩
  match observed, pattern with
  | some .affected, .autosomal_recessive =>
    let post1 := pinUnlessUnaffected motherStatus
    let post2 := pinUnlessUnaffected fatherStatus
    let u := post1 * post2
    ⟨jround (u * 100), u, u, .high, some ⟨post1, post2, some ⟨u, u⟩⟩⟩
  | some .unaffected, .autosomal_recessive =>
    let priorMother := arUnaffectedPrior motherStatus
    let priorFather := arUnaffectedPrior fatherStatus
    let likelihood_carrier : ℚ := 3/4
    let likelihood_noncarrier : ℚ := 1
    let post1 :=
      if 0 < priorMother ∧ priorMother < 1 then
        (likelihood_carrier * priorMother) /
          (likelihood_carrier * priorMother + likelihood_noncarrier * (1 - priorMother))
      else priorMother
    let post2 :=
      if 0 < priorFather ∧ priorFather < 1 then
        (likelihood_carrier * priorFather) /
          (likelihood_carrier * priorFather + likelihood_noncarrier * (1 - priorFather))
      else priorFather
    let u := post1 * post2
    ⟨jround (u * 100), u, u, .high, some ⟨post1, post2, some ⟨u, u⟩⟩⟩
  | some .affected, .x_linked =>
    match childSex with
    | .male =>
      let w := motherTransmitXLR motherStatus
      ⟨fwd.riskPercentage, fwd.riskMin, fwd.riskMax, .high,
        some ⟨pinUnlessUnaffected fatherStatus, pinUnlessUnaffected motherStatus,
          some ⟨w, w⟩⟩⟩
    | .female =>
      let w := motherTransmitXLR motherStatus * fatherTransmitToDaughterXLR fatherStatus
      ⟨fwd.riskPercentage, fwd.riskMin, fwd.riskMax, .high,
        some ⟨pinUnlessUnaffected fatherStatus, pinUnlessUnaffected motherStatus,
          some ⟨w, w⟩⟩⟩
    | .unknown => keepForward
  | some .unaffected, .x_linked =>
    match childSex with
    | .male =>
      let prior := xlrUnaffectedMotherPrior motherStatus
      let posterior := (1/2 * prior) / (1/2 * prior + 1 * (1 - prior))
      ⟨fwd.riskPercentage, fwd.riskMin, fwd.riskMax, .high,
        some ⟨pinIfCarrier fatherStatus, posterior, some ⟨posterior, posterior⟩⟩⟩
    | _ => keepForward
  | _, _ => keepForward

/-- Modelled from the spec: the forward recomputation of autosomal
recessive risk from explicit parent carrier probabilities.  This path
lives in the python service (genetics_logic.py, calculate_risk with
carrier_probability), which is not under src/; per sections 4.1 and 4.2
of the spec a parent of carrier probability q transmits with probability
q times 0.5, and the child is affected when both parents transmit. -/
def forwardRiskFromCarrierProbsAR (q1 q2 : ℚ) : ℚ :=
  (q1 * (1/2)) * (q2 * (1/2))

/-- Bounds check on an optional updated_risk record. -/
def withinBounds : Option UpdatedRisk → Prop
  | none => True
  | some u => 0 ≤ u.min ∧ u.min ≤ u.max ∧ u.max ≤ 1

/-- The updated_risk record of a result, when a Bayesian update was made. -/
def updatedRiskOf (r : CalculationResult) : Option UpdatedRisk :=
  match r.bayesianUpdate with
  | none => none
  | some b => b.updated_risk

/-- The result carries the forward risk display values unchanged. -/
abbrev sameRiskAsForward (pattern : Pattern) (motherStatus fatherStatus : Status)
    (childSex : ChildSex) (observed : Option ObservedOutcome) : Prop :=
  (calculateLocalRisk pattern motherStatus fatherStatus childSex observed).riskPercentage =
      (forwardRisk pattern motherStatus fatherStatus childSex).riskPercentage ∧
    (calculateLocalRisk pattern motherStatus fatherStatus childSex observed).riskMin =
      (forwardRisk pattern motherStatus fatherStatus childSex).riskMin ∧
    (calculateLocalRisk pattern motherStatus fatherStatus childSex observed).riskMax =
      (forwardRisk pattern motherStatus fatherStatus childSex).riskMax


/-- C4: under autosomal_recessive with both parents carrier, for any child
sex, the forward risk is exactly 0.25 (min, max and rounded percentage)
and the reported confidence is high. -/
theorem c4_ar_carrier_carrier_risk :
    ∀ sex, (forwardRisk .autosomal_recessive .carrier .carrier sex).riskMin = 1/4 ∧
      (forwardRisk .autosomal_recessive .carrier .carrier sex).riskMax = 1/4 ∧
      (forwardRisk .autosomal_recessive .carrier .carrier sex).riskPercentage = 25 ∧
      (calculateLocalRisk .autosomal_recessive .carrier .carrier sex none).confidence =
        .high := by
  intro sex
  refine ⟨by norm_num [forwardRisk, transmitProbAR],
    by norm_num [forwardRisk, transmitProbAR], ?_, rfl⟩
  norm_num [forwardRisk, transmitProbAR, jround, Int.floor_eq_iff]

/-- C5: under autosomal_dominant with one affected and one unaffected
parent (either way round) the forward risk is exactly 0.5, and in general
the autosomal dominant risk is 1 - (1 - P(father transmits)) *
(1 - P(mother transmits)). -/
theorem c5_ad_affected_unaffected_risk :
    ∀ sex,
      ((forwardRisk .autosomal_dominant .affected .unaffected sex).riskMin = 1/2 ∧
        (forwardRisk .autosomal_dominant .affected .unaffected sex).riskMax = 1/2) ∧
      ((forwardRisk .autosomal_dominant .unaffected .affected sex).riskMin = 1/2 ∧
        (forwardRisk .autosomal_dominant .unaffected .affected sex).riskMax = 1/2) ∧
      ∀ m f, (forwardRisk .autosomal_dominant m f sex).riskMin =
          1 - (1 - transmitProbAD f) * (1 - transmitProbAD m) ∧
        (forwardRisk .autosomal_dominant m f sex).riskMax =
          1 - (1 - transmitProbAD f) * (1 - transmitProbAD m) := by
  intro sex
  exact ⟨⟨by norm_num [forwardRisk, transmitProbAD], by norm_num [forwardRisk, transmitProbAD]⟩,
    ⟨by norm_num [forwardRisk, transmitProbAD], by norm_num [forwardRisk, transmitProbAD]⟩,
    fun m f => ⟨rfl, rfl⟩⟩

/-- C3 counterexample: the claim says an affected parent always has
transmission probability 1.0, but under autosomal_dominant the source
gives an affected parent transmission probability 0.5. -/
theorem c3_ad_affected_counterexample :
    transmitProbAD .affected = 1/2 ∧ ((1:ℚ)/2) ≠ 1 := ⟨rfl, by norm_num⟩

/-- C3 amended: per-status transmission probabilities as the source
derives them.  Affected maps to 1.0 except under autosomal_dominant,
where an affected parent (presumed heterozygous) transmits with 0.5;
carrier maps to 0.5 for the autosomal patterns and the x-linked mother,
and to the father-affected population prior for the x-linked
father-to-daughter value (fathers cannot be silent carriers); unaffected
maps to 0.0; unknown maps to the population-prior-weighted expectation
of the per-status transmission values. -/
theorem c3_transmission_values_amended :
    (∀ r, transmitProbAR .affected r = 1 ∧ transmitProbAR .carrier r = 1/2 ∧
      transmitProbAR .unaffected r = 0 ∧
      transmitProbAR .unknown r = ar_carrier_prior * (1/2) + ar_affected_prior * 1) ∧
    (transmitProbAD .affected = 1/2 ∧ transmitProbAD .carrier = 1/2 ∧
      transmitProbAD .unaffected = 0 ∧
      transmitProbAD .unknown = ad_affected_prior * (1/2)) ∧
    (motherTransmitXLR .affected = 1 ∧ motherTransmitXLR .carrier = 1/2 ∧
      motherTransmitXLR .unaffected = 0 ∧
      motherTransmitXLR .unknown =
        xl_mother_carrier_prior * (1/2) + xl_mother_affected_prior * 1) ∧
    (fatherTransmitToDaughterXLR .affected = 1 ∧
      fatherTransmitToDaughterXLR .unaffected = 0 ∧
      fatherTransmitToDaughterXLR .carrier = xl_father_affected_prior ∧
      fatherTransmitToDaughterXLR .unknown = xl_father_affected_prior) := by
  refine ⟨fun r => ?_, ⟨rfl, rfl, rfl, rfl⟩, ⟨rfl, rfl, rfl, rfl⟩, ⟨rfl, rfl, rfl, rfl⟩⟩
  cases r <;>
    norm_num [transmitProbAR, ar_carrier_prior, ar_affected_prior, xl_mother_carrier_prior]

/-- C6: under x_linked a male child's risk is the mother's transmission
probability, a female child's risk is the mother's transmission
probability times the father's transmission-to-daughter probability, an
unspecified child sex reports the interval between the two sex-conditional
risks with the rounded midpoint as the point estimate, and in every other
supported case the result's min equals its max. -/
theorem c6_xlinked_sex_cases :
    (∀ m f, (forwardRisk .x_linked m f .male).riskMin = motherTransmitXLR m ∧
      (forwardRisk .x_linked m f .male).riskMax = motherTransmitXLR m) ∧
    (∀ m f, (forwardRisk .x_linked m f .female).riskMin =
        motherTransmitXLR m * fatherTransmitToDaughterXLR f ∧
      (forwardRisk .x_linked m f .female).riskMax =
        motherTransmitXLR m * fatherTransmitToDaughterXLR f) ∧
    (∀ m f, (forwardRisk .x_linked m f .unknown).riskMin =
        min (motherTransmitXLR m) (motherTransmitXLR m * fatherTransmitToDaughterXLR f) ∧
      (forwardRisk .x_linked m f .unknown).riskMax =
        max (motherTransmitXLR m) (motherTransmitXLR m * fatherTransmitToDaughterXLR f) ∧
      (forwardRisk .x_linked m f .unknown).riskPercentage =
        jround ((motherTransmitXLR m +
          motherTransmitXLR m * fatherTransmitToDaughterXLR f) / 2 * 100)) ∧
    ∀ p m f s o, ¬(p = .x_linked ∧ s = .unknown) →
      (calculateLocalRisk p m f s o).riskMin = (calculateLocalRisk p m f s o).riskMax := by
  refine ⟨fun m f => ⟨rfl, rfl⟩, fun m f => ⟨rfl, rfl⟩, fun m f => ⟨rfl, rfl, rfl⟩,
    fun p m f s o h => ?_⟩
  cases o with
  | none =>
    cases p <;> cases s <;> first | rfl | exact absurd ⟨rfl, rfl⟩ h
  | some ov =>
    cases ov <;> cases p <;> cases s <;> first | rfl | exact absurd ⟨rfl, rfl⟩ h

/-- C6 witness: a concrete non-exceptional input where min equals max. -/
theorem c6_xlinked_sex_cases_witness :
    (calculateLocalRisk .autosomal_recessive .carrier .carrier .male none).riskMin =
      (calculateLocalRisk .autosomal_recessive .carrier .carrier .male none).riskMax :=
  c6_xlinked_sex_cases.2.2.2 .autosomal_recessive .carrier .carrier .male none (by decide)

set_option maxHeartbeats 1000000 in
/-- C7: for every pattern, parent statuses, child sex and observed
outcome, the result satisfies 0 <= riskMin <= riskMax <= 1, and the
updated_risk produced by a Bayesian update also lies within [0, 1]. -/
theorem c7_risk_bounds : ∀ p m f s o,
    0 ≤ (calculateLocalRisk p m f s o).riskMin ∧
    (calculateLocalRisk p m f s o).riskMin ≤ (calculateLocalRisk p m f s o).riskMax ∧
    (calculateLocalRisk p m f s o).riskMax ≤ 1 ∧
    withinBounds (updatedRiskOf (calculateLocalRisk p m f s o)) := by
  intro p m f s o
  cases o with
  | none =>
    cases p <;> cases m <;> cases f <;> cases s <;>
      norm_num [calculateLocalRisk, forwardRisk, transmitProbAR, transmitProbAD,
        motherTransmitXLR, fatherTransmitToDaughterXLR, pinUnlessUnaffected,
        arUnaffectedPrior, xlrUnaffectedMotherPrior, pinIfCarrier,
        withinBounds, updatedRiskOf, min_def, max_def,
        ar_carrier_prior, ar_affected_prior, ad_affected_prior,
        xl_mother_carrier_prior, xl_mother_affected_prior, xl_father_affected_prior]
  | some ov =>
    cases ov <;> cases p <;> cases m <;> cases f <;> cases s <;>
      norm_num [calculateLocalRisk, forwardRisk, transmitProbAR, transmitProbAD,
        motherTransmitXLR, fatherTransmitToDaughterXLR, pinUnlessUnaffected,
        arUnaffectedPrior, xlrUnaffectedMotherPrior, pinIfCarrier,
        withinBounds, updatedRiskOf, min_def, max_def,
        ar_carrier_prior, ar_affected_prior, ad_affected_prior,
        xl_mother_carrier_prior, xl_mother_affected_prior, xl_father_affected_prior]

/-- C9 counterexample: an input with both parent statuses and the child
sex unknown reports the very same confidence as a fully specified input,
so confidence is not derived from how many inputs were unknown. -/
theorem c9_confidence_insensitive_counterexample :
    (calculateLocalRisk .autosomal_recessive .unknown .unknown .unknown none).confidence =
      (calculateLocalRisk .autosomal_recessive .carrier .carrier .male none).confidence :=
  rfl

/-- C9 amended: the confidence field is one of the qualitative labels
high, medium, low, but calculateLocalRisk reports the constant high for
every input, regardless of how many inputs were unknown. -/
theorem c9_confidence_always_high :
    ∀ p m f s o, (calculateLocalRisk p m f s o).confidence = .high := by
  intro p m f s o
  cases o with
  | none => cases p <;> cases s <;> rfl
  | some ov => cases ov <;> cases p <;> cases s <;> rfl

/-- C10: the Bayesian update is null and the forward risk display is
returned unchanged when the observed outcome is absent or unknown, for
every autosomal_dominant input with any observed outcome, and for every
x_linked input with observed outcome unaffected and a female or
unspecified child sex. -/
theorem c10_null_bayesian_update :
    (∀ p m f s, (calculateLocalRisk p m f s none).bayesianUpdate = none ∧
      sameRiskAsForward p m f s none) ∧
    (∀ p m f s, (calculateLocalRisk p m f s (some .unknown)).bayesianUpdate = none ∧
      sameRiskAsForward p m f s (some .unknown)) ∧
    (∀ m f s o, (calculateLocalRisk .autosomal_dominant m f s o).bayesianUpdate = none ∧
      sameRiskAsForward .autosomal_dominant m f s o) ∧
    (∀ m f, (calculateLocalRisk .x_linked m f .female (some .unaffected)).bayesianUpdate =
        none ∧
      sameRiskAsForward .x_linked m f .female (some .unaffected)) ∧
    (∀ m f, (calculateLocalRisk .x_linked m f .unknown (some .unaffected)).bayesianUpdate =
        none ∧
      sameRiskAsForward .x_linked m f .unknown (some .unaffected)) := by
  refine ⟨fun p m f s => ?_, fun p m f s => ?_, fun m f s o => ?_,
    fun m f => ⟨rfl, rfl, rfl, rfl⟩, fun m f => ⟨rfl, rfl, rfl, rfl⟩⟩
  · cases p <;> cases s <;> exact ⟨rfl, rfl, rfl, rfl⟩
  · cases p <;> cases s <;> exact ⟨rfl, rfl, rfl, rfl⟩
  · cases o with
    | none => cases s <;> exact ⟨rfl, rfl, rfl, rfl⟩
    | some ov => cases ov <;> cases s <;> exact ⟨rfl, rfl, rfl, rfl⟩

/-- C1: the P6 consistency invariant fails on the source.  With both
parents carrier and an observed affected child, the update returns
posterior carrier probabilities (1, 1) and stores their bare product 1
in updated_risk, while recomputing the forward autosomal recessive risk
from those posteriors (each certain carrier transmits with probability
0.5) yields 0.25. -/
theorem c1_p6_consistency_violation_eval :
    (calculateLocalRisk .autosomal_recessive .carrier .carrier .male
      (some .affected)).bayesianUpdate = some ⟨1, 1, some ⟨1, 1⟩⟩ ∧
    forwardRiskFromCarrierProbsAR 1 1 = 1/4 ∧ ((1:ℚ)/4) ≠ 1 := by
  refine ⟨?_, by norm_num [forwardRiskFromCarrierProbsAR], by norm_num⟩
  norm_num [calculateLocalRisk, pinUnlessUnaffected]

/-- C2: Scenario B fails on the source.  With mother=carrier,
father=carrier and observed=affected the posteriors are both 1.0 as
claimed, but updated_risk is 1.0 (displayed as 100 percent) instead of
the claimed 0.25; with mother=unknown, father=carrier and
observed=affected the mother's posterior is 1.0 as claimed. -/
theorem c2_scenario_b_eval :
    (calculateLocalRisk .autosomal_recessive .carrier .carrier .male
      (some .affected)).bayesianUpdate = some ⟨1, 1, some ⟨1, 1⟩⟩ ∧
    (calculateLocalRisk .autosomal_recessive .carrier .carrier .male
      (some .affected)).riskPercentage = 100 ∧
    (calculateLocalRisk .autosomal_recessive .unknown .carrier .male
      (some .affected)).bayesianUpdate = some ⟨1, 1, some ⟨1, 1⟩⟩ ∧
    ((1:ℚ) ≠ 1/4) := by
  refine ⟨?_, ?_, ?_, by norm_num⟩ <;>
    norm_num [calculateLocalRisk, pinUnlessUnaffected, jround, Int.floor_eq_iff]

/-- C8: the certainty fixed point fails on the source for the x-linked
father.  With an affected father and a male child, the observed
unaffected arm reports the father's carrier probability as 0 while the
observed affected arm reports it as 1, so the same pinned parent status
does not receive the same posterior: the update is not the identity on
a parent whose status is already certain. -/
theorem c8_xlr_affected_father_not_fixed_eval :
    (calculateLocalRisk .x_linked .carrier .affected .male
      (some .unaffected)).bayesianUpdate = some ⟨0, 1, some ⟨1, 1⟩⟩ ∧
    (calculateLocalRisk .x_linked .carrier .affected .male
      (some .affected)).bayesianUpdate = some ⟨1, 1, some ⟨1/2, 1/2⟩⟩ ∧
    ((0:ℚ) ≠ 1) := by
  refine ⟨?_, ?_, by norm_num⟩ <;>
    norm_num [calculateLocalRisk, pinIfCarrier, pinUnlessUnaffected,
      xlrUnaffectedMotherPrior, motherTransmitXLR]
